import Mathlib

/-
Verification development for the Jetistik Hub dashboard (src/main.py).

The application is a FastAPI CRUD app: users register and log in (bcrypt
password hashes, signed cookie token), submit achievement records with an
optional file attachment (Cloudinary upload with a local-disk fallback),
and delete their own records.  This file gives a shallow embedding of the
handlers relevant to the stated properties and proves or refutes each one.

Modelling conventions:
  - Python `str` is `String`; `Optional[str]` is `Option String`;
    raw bytes are `List Nat` (one entry per byte).
  - Python dicts used by the code are association lists with a
    `dict.get(key, default)` operation (`dictGetD`).
  - External effects are oracles passed as explicit arguments:
    `cloudinaryUpload` for `cloudinary.uploader.upload` (returns the
    secure url or an error), the two `uuid.uuid4()` calls in
    `add_achievement` are the arguments `uuid1`, `uuid2`, `bcrypt.checkpw`
    and `bcrypt.hashpw`/`gensalt` are the arguments `checkpw`, `hashpw`,
    `salt`, and `serializer.dumps` is the argument `dumps`.
  - The database is in-memory state: the achievements table is a list,
    the `uploads` directory is a list of (filename, bytes) pairs.
  - The autoincrement primary key is modelled as `length + 1`.
  - `created_at` (a wall-clock timestamp) is not carried on the record
    model; it is listed in `achievementColumns`, the literal transcription
    of the `Column` declarations of the `achievements` table.
-/

namespace JetistikHub

/-- Truthiness of a Python `Optional[str]`: `None` and the empty string
are falsy, everything else is truthy (used for `if level and place` and
`if file and file.filename`). -/
def pyTruthy : Option String → Bool
  | none => false
  | some s => !(s == "")

/-- Python `d.get(k, default)` on a dict modelled as an association list. -/
def dictGetD {α : Type} (d : List (String × α)) (k : String) (dflt : α) : α :=
  match d.find? (fun e => e.1 == k) with
  | some e => e.2
  | none => dflt

/-- The static nested points dict of `add_achievement` (src/main.py lines
388-393), transcribed entry for entry. -/
def points_table : List (String × List (String × Nat)) :=
  [("city", [("1", 35), ("2", 30), ("3", 25), ("certificate", 10)]),
   ("regional", [("1", 40), ("2", 35), ("3", 30), ("certificate", 15)]),
   ("national", [("1", 45), ("2", 40), ("3", 35), ("certificate", 20)]),
   ("international", [("1", 50), ("2", 45), ("3", 40), ("certificate", 25)])]

/-- The points computation of `add_achievement` (src/main.py lines 395-397):
`calculated_points = 0; if level and place: calculated_points =
points_table.get(level, \x7b\x7d).get(place, 0)`. -/
def calculated_points (level place : Option String) : Nat :=
  if pyTruthy level && pyTruthy place then
    dictGetD (dictGetD points_table (level.getD "") []) (place.getD "") 0
  else 0

/-- The four level keys of the points table. -/
def levelKeys : List String := ["city", "regional", "national", "international"]

/-- The four place keys of the points table. -/
def placeKeys : List String := ["1", "2", "3", "certificate"]

/-- Membership of a (level, place) pair of form inputs in the tabulated
domain: both present and both among the table keys. -/
def inPointsDomain (level place : Option String) : Bool :=
  match level, place with
  | some l, some p => levelKeys.contains l && placeKeys.contains p
  | _, _ => false

theorem dictGetD_eq_default {α : Type} (d : List (String × α)) (k : String) (dflt : α)
    (h : ∀ e ∈ d, e.1 ≠ k) : dictGetD d k dflt = dflt := by
  unfold dictGetD
  have hn : d.find? (fun e => e.1 == k) = none := by
    apply List.find?_eq_none.mpr
    intro e he
    simpa using h e he
  rw [hn]

theorem dictGetD_cases {α : Type} (d : List (String × α)) (k : String) (dflt : α) :
    dictGetD d k dflt = dflt ∨ ∃ e, e ∈ d ∧ dictGetD d k dflt = e.2 := by
  unfold dictGetD
  cases hf : d.find? (fun e => e.1 == k) with
  | none => exact Or.inl rfl
  | some e => exact Or.inr ⟨e, List.mem_of_find?_eq_some hf, rfl⟩

theorem points_inner_default (l p : String) (hp : p ∉ placeKeys) :
    dictGetD (dictGetD points_table l []) p 0 = 0 := by
  rcases dictGetD_cases points_table l [] with hcase | ⟨entry, hmem, hcase⟩
  · rw [hcase]; rfl
  · rw [hcase]
    apply dictGetD_eq_default
    intro e he hek
    apply hp
    rw [← hek]
    fin_cases hmem <;> fin_cases he <;> decide

theorem points_outer_default (l p : String) (hl : l ∉ levelKeys) :
    dictGetD (dictGetD points_table l []) p 0 = 0 := by
  have houter : dictGetD points_table l [] = [] := by
    apply dictGetD_eq_default
    intro e he hek
    apply hl
    rw [← hek]
    fin_cases he <;> decide
  rw [houter]
  rfl

theorem calculated_points_zero_outside (level place : Option String)
    (h : inPointsDomain level place = false) : calculated_points level place = 0 := by
  match level, place with
  | none, _ => rfl
  | some l, none =>
    simp [calculated_points, pyTruthy]
  | some l, some p =>
    unfold calculated_points
    by_cases hc : pyTruthy (some l) && pyTruthy (some p)
    · rw [if_pos hc]
      simp only [inPointsDomain, Bool.and_eq_false_iff] at h
      rcases h with h | h
      · apply points_outer_default
        simp only [Option.getD_some]
        simp at h
        exact h
      · apply points_inner_default
        simp only [Option.getD_some]
        simp at h
        exact h
    · rw [if_neg hc]

/-- The `users` table row (src/main.py lines 35-45). -/
structure User where
  id : Nat
  username : String
  password_hash : String
  full_name : Option String
  is_admin : Bool
  school : Option String
  subject : Option String
  category : Option String
  experience : Nat
deriving Repr, DecidableEq

/-- The `achievements` table row (src/main.py lines 54-67); `created_at`
(a wall-clock default) is not carried here, see `achievementColumns`. -/
structure Achievement where
  id : Nat
  user_id : Nat
  achievement_type : String
  student_name : Option String
  title : String
  description : Option String
  category : String
  level : Option String
  place : Option String
  file_path : Option String
  points : Nat
deriving Repr, DecidableEq

/-- The column names declared on the `achievements` model (src/main.py
lines 56-67), in declaration order. -/
def achievementColumns : List String :=
  ["id", "user_id", "achievement_type", "student_name", "title", "description",
   "category", "level", "place", "file_path", "points", "created_at"]

/-- Mutable world state touched by the handlers: the achievements table and
the on-disk `uploads` directory (filename, bytes). -/
structure AppState where
  achievements : List Achievement
  uploads : List (String × List Nat)
deriving Repr, DecidableEq

/-- The only response shape the modelled handlers produce: a redirect with
a status code (FastAPI `RedirectResponse`; default code 307, explicit 303
where the source passes `status_code=303`). -/
inductive Response where
  | redirect (url : String) (statusCode : Nat)
deriving Repr, DecidableEq

/-- A multipart file as the handler sees it: original filename and bytes. -/
structure UploadedFile where
  filename : String
  content : List Nat
deriving Repr, DecidableEq

/-- The form fields of `POST /add-achievement` (src/main.py lines 372-378). -/
structure AchievementForm where
  achievement_type : String
  title : String
  description : Option String
  category : String
  level : Option String
  place : Option String
  student_name : Option String
deriving Repr, DecidableEq

/-- Python `str.split(sep)` for a one-character separator, over the
character list. -/
def splitOnChar (sep : Char) : List Char → List (List Char)
  | [] => [[]]
  | c :: cs =>
    let rest := splitOnChar sep cs
    if c == sep then [] :: rest
    else
      match rest with
      | [] => [[c]]
      | g :: gs => (c :: g) :: gs

/-- Python `filename.split(".")[-1]` (src/main.py line 407): the last
dot-separated component (`split` always returns a non-empty list). -/
def file_ext_of (filename : String) : String :=
  ((splitOnChar '.' filename.data).map String.mk).getLastD ""

/-- Python `s.replace(old, new)` for one-character arguments
(src/main.py line 449). -/
def pyReplaceChar (s : String) (old new : Char) : String :=
  String.mk (s.data.map (fun c => if c == old then new else c))

/-- The `POST /add-achievement` handler (src/main.py lines 370-449).
`cloudinaryUpload` is the `cloudinary.uploader.upload` oracle (bytes and
`public_id` to secure url, or an error); `uuid1` is the `uuid.uuid4()` of
the Cloudinary `public_id`, `uuid2` the one of the local fallback
filename. -/
def add_achievement (cloudinaryUpload : List Nat → String → Except String String)
    (uuid1 uuid2 : String) (user : Option User) (form : AchievementForm)
    (file : Option UploadedFile) (st : AppState) : Response × AppState :=
  match user with
  | none => (Response.redirect "/login" 307, st)
  | some u =>
    let pts := calculated_points form.level form.place
    let commit := fun (file_path : Option String) (st2 : AppState) =>
      let newAchievement : Achievement :=
        { id := st2.achievements.length + 1, user_id := u.id,
          achievement_type := form.achievement_type, student_name := form.student_name,
          title := form.title, description := form.description, category := form.category,
          level := form.level, place := form.place, file_path := file_path, points := pts }
      (Response.redirect ("/" ++ pyReplaceChar form.achievement_type '_' '-' ++ "?success=added") 303,
       { st2 with achievements := st2.achievements ++ [newAchievement] })
    match file with
    | none => commit none st
    | some f =>
      if f.filename == "" then commit none st
      else if f.content.length > 5 * 1024 * 1024 then
        (Response.redirect ("/" ++ form.achievement_type ++ "?error=file_too_large") 303, st)
      else
        let public_id := "jetistik_hub/" ++ uuid1
        match cloudinaryUpload f.content public_id with
        | Except.ok secure_url => commit (some secure_url) st
        | Except.error _ =>
          let unique_filename := uuid2 ++ "." ++ file_ext_of f.filename
          commit (some ("/uploads/" ++ unique_filename))
            { st with uploads := st.uploads ++ [(unique_filename, f.content)] }

/-- The `POST /achievement/\x7bachievement_id\x7d/delete` handler
(src/main.py lines 469-487): the query filters on both the achievement id
and `user_id == user.id`; a found row is deleted, otherwise nothing
happens; the response is always a redirect to `/jeke-cabinet`.  The
handler never touches the uploads directory. -/
def delete_achievement (user : Option User) (achievement_id : Nat) (st : AppState) :
    Response × AppState :=
  match user with
  | none => (Response.redirect "/login" 307, st)
  | some u =>
    match st.achievements.find? (fun a => a.id == achievement_id && a.user_id == u.id) with
    | some _ =>
      (Response.redirect "/jeke-cabinet" 303,
       { st with achievements :=
           st.achievements.eraseP (fun a => a.id == achievement_id && a.user_id == u.id) })
    | none => (Response.redirect "/jeke-cabinet" 303, st)

/-- Result of a request against the static `/uploads` mount. -/
inductive StaticResult where
  | bytes (content : List Nat)
  | notFound
deriving Repr, DecidableEq

/-- The static `/uploads` mount (src/main.py lines 81-83):
`app.mount("/uploads", StaticFiles(directory=UPLOAD_DIR))` serves any file
in the uploads directory by name.  The mount has no dependency on the
token cookie, so the requesting identity (`requester`) plays no role in
the outcome. -/
def serve_upload (st : AppState) (requester : Option User) (name : String) : StaticResult :=
  match st.uploads.find? (fun e => e.1 == name) with
  | some e => StaticResult.bytes e.2
  | none => StaticResult.notFound

/-- UTF-8 encoding of a string as a byte list (Python `s.encode('utf-8')`). -/
def utf8Bytes (s : String) : List Nat :=
  (s.data.flatMap String.utf8EncodeChar).map UInt8.toNat

/-- `User.check_password` (src/main.py lines 49-51): truncate the UTF-8
encoding of the candidate password to 72 bytes, then delegate to the
`bcrypt.checkpw` oracle `checkpw` (bytes and stored hash to boolean). -/
def check_password (checkpw : List Nat → String → Bool) (password_hash : String)
    (password : String) : Bool :=
  let password_bytes := (utf8Bytes password).take 72
  checkpw password_bytes password_hash

/-- The stored-hash computation of `POST /register` (src/main.py lines
316-317): truncate to 72 UTF-8 bytes, then `bcrypt.hashpw` (oracle
`hashpw`, with the generated `salt`). -/
def register_password_hash (hashpw : List Nat → String → String) (salt : String)
    (password : String) : String :=
  hashpw ((utf8Bytes password).take 72) salt

/-- `db.query(User).filter(User.username == username).first()`. -/
def find_user (db : List User) (username : String) : Option User :=
  db.find? (fun u => u.username == username)

/-- A login response: redirect target, status code, and the optional
`token` cookie value. -/
structure LoginResponse where
  url : String
  statusCode : Nat
  tokenCookie : Option String
deriving Repr, DecidableEq

/-- The `POST /login` handler (src/main.py lines 264-278): look the user
up by username; if there is no such user, or the password check fails,
return the one invalid-credentials redirect; otherwise redirect to `/home`
with a signed token cookie (`dumps` is the `serializer.dumps` oracle on
the user id). -/
def login (checkpw : List Nat → String → Bool) (dumps : Nat → String)
    (db : List User) (username password : String) : LoginResponse :=
  match find_user db username with
  | none => { url := "/login?error=invalid_credentials", statusCode := 303, tokenCookie := none }
  | some user =>
    if !(check_password checkpw user.password_hash password) then
      { url := "/login?error=invalid_credentials", statusCode := 303, tokenCookie := none }
    else
      { url := "/home", statusCode := 303, tokenCookie := some (dumps user.id) }

/-- Modelled from the spec: the moderation status of an achievement.  The
source file src/main.py declares no status column and no moderation
routes; spec section 4.3 describes the missing code: states `pending`,
`approved`, `rejected`, with `pending` initial. -/
inductive Status where
  | pending
  | approved
  | rejected
deriving Repr, DecidableEq

/-- Modelled from the spec: an achievement row as seen by the moderation
workflow (spec section 4.3), reduced to the fields moderation reads. -/
structure ModerationRow where
  id : Nat
  user_id : Nat
  status : Status
deriving Repr, DecidableEq

/-- Outcome of a moderation request. -/
inductive ModerationOutcome where
  | ok
  | forbidden
  | notFound
deriving Repr, DecidableEq

/-- Modelled from the spec: the shared body of `approve`/`reject`
(spec section 4.3): fail with `Forbidden` unless the acting user is an
admin; fail with `NotFound` if the id is absent; otherwise set the status
of the addressed row. -/
def moderate (acting : User) (achievement_id : Nat) (s : Status)
    (db : List ModerationRow) : ModerationOutcome × List ModerationRow :=
  if !acting.is_admin then (ModerationOutcome.forbidden, db)
  else
    match db.find? (fun a => a.id == achievement_id) with
    | none => (ModerationOutcome.notFound, db)
    | some _ =>
      (ModerationOutcome.ok,
       db.map (fun a => if a.id == achievement_id then { a with status := s } else a))

/-- Modelled from the spec: `POST /achievement/\x7bid\x7d/approve`
(spec sections 4.3 and 6), absent from src/main.py. -/
def approve (acting : User) (achievement_id : Nat) (db : List ModerationRow) :
    ModerationOutcome × List ModerationRow :=
  moderate acting achievement_id Status.approved db

/-- Modelled from the spec: `POST /achievement/\x7bid\x7d/reject`
(spec sections 4.3 and 6), absent from src/main.py. -/
def reject (acting : User) (achievement_id : Nat) (db : List ModerationRow) :
    ModerationOutcome × List ModerationRow :=
  moderate acting achievement_id Status.rejected db

/-! Concrete fixtures used by witnesses and counterexamples. -/

/-- A regular (non-admin) user. -/
def alice : User :=
  { id := 1, username := "alice", password_hash := "hash-a", full_name := some "Alice A",
    is_admin := false, school := none, subject := none, category := none, experience := 0 }

/-- A second regular user, neither owner nor admin in the scenarios below. -/
def bob : User :=
  { id := 2, username := "bob", password_hash := "hash-b", full_name := some "Bob B",
    is_admin := false, school := none, subject := none, category := none, experience := 0 }

/-- An administrator. -/
def adminUser : User :=
  { id := 3, username := "admin", password_hash := "hash-c", full_name := some "Admin",
    is_admin := true, school := none, subject := none, category := none, experience := 0 }

/-- Fresh state: empty achievements table, empty uploads directory. -/
def emptyState : AppState := { achievements := [], uploads := [] }

/-- The submission form of the spec scenario: a student achievement at
regional level, second place. -/
def regionalForm : AchievementForm :=
  { achievement_type := "student", title := "Olympiad result", description := none,
    category := "olympiad", level := some "regional", place := some "2",
    student_name := some "Student S" }

/-- A `cloudinary.uploader.upload` oracle that always succeeds. -/
def cloudOk : List Nat → String → Except String String :=
  fun _ _ => Except.ok "https://cdn.example/file"

/-- A `cloudinary.uploader.upload` oracle that always raises. -/
def cloudFail : List Nat → String → Except String String :=
  fun _ _ => Except.error "cloudinary down"

/-- Alice's stored achievement carrying a local file reference. -/
def fileAch : Achievement :=
  { id := 1, user_id := 1, achievement_type := "student", student_name := some "Student S",
    title := "Olympiad result", description := none, category := "olympiad",
    level := some "regional", place := some "2", file_path := some "/uploads/f.pdf",
    points := 35 }

/-- State holding Alice's achievement and its file on disk. -/
def fileState : AppState := { achievements := [fileAch], uploads := [("f.pdf", [9, 9])] }

/-- A small pdf upload. -/
def pdfFile : UploadedFile := { filename := "cert.pdf", content := [7, 7, 7] }

/-- A payload one byte over the 5 MiB limit. -/
def bigContent : List Nat := List.replicate (5 * 1024 * 1024 + 1) 0

/-! Shared helper lemmas about the handlers. -/

theorem small_upload_commits (cloud : List Nat → String → Except String String)
    (uuid1 uuid2 : String) (u : User) (form : AchievementForm) (f : UploadedFile)
    (st : AppState) (hsize : f.content.length ≤ 5 * 1024 * 1024) :
    (add_achievement cloud uuid1 uuid2 (some u) form (some f) st).1 =
      Response.redirect ("/" ++ pyReplaceChar form.achievement_type '_' '-' ++ "?success=added") 303 ∧
    (add_achievement cloud uuid1 uuid2 (some u) form (some f) st).2.achievements.length =
      st.achievements.length + 1 := by
  have hgt : ¬ f.content.length > 5 * 1024 * 1024 := by omega
  unfold add_achievement
  cases hf : (f.filename == "") with
  | true => simp [hf]
  | false =>
    cases hm : cloud f.content ("jetistik_hub/" ++ uuid1) with
    | ok url => simp [hf, hgt, hm]
    | error e => simp [hf, hgt, hm]

/-! Claim theorems. -/

/-- C1: the points computation of achievement creation returns exactly the
tabulated value on each of the sixteen (level, place) pairs of the domain
(city 35/30/25/10, regional 40/35/30/15, national 45/40/35/20,
international 50/45/40/25), and returns 0 — never failing — on every pair
outside the domain, including an absent level or place. -/
theorem points_lookup_matches_table :
    (calculated_points (some "city") (some "1") = 35 ∧
     calculated_points (some "city") (some "2") = 30 ∧
     calculated_points (some "city") (some "3") = 25 ∧
     calculated_points (some "city") (some "certificate") = 10 ∧
     calculated_points (some "regional") (some "1") = 40 ∧
     calculated_points (some "regional") (some "2") = 35 ∧
     calculated_points (some "regional") (some "3") = 30 ∧
     calculated_points (some "regional") (some "certificate") = 15 ∧
     calculated_points (some "national") (some "1") = 45 ∧
     calculated_points (some "national") (some "2") = 40 ∧
     calculated_points (some "national") (some "3") = 35 ∧
     calculated_points (some "national") (some "certificate") = 20 ∧
     calculated_points (some "international") (some "1") = 50 ∧
     calculated_points (some "international") (some "2") = 45 ∧
     calculated_points (some "international") (some "3") = 40 ∧
     calculated_points (some "international") (some "certificate") = 25) ∧
    (∀ level place : Option String, inPointsDomain level place = false →
      calculated_points level place = 0) :=
  ⟨by decide, calculated_points_zero_outside⟩

/-- Witness for C1 at pairs outside the domain: an unknown level, an
unknown place, and an absent level all yield 0. -/
theorem points_lookup_matches_table_witness :
    calculated_points (some "school") (some "1") = 0 ∧
    calculated_points (some "city") (some "4") = 0 ∧
    calculated_points none (some "1") = 0 :=
  ⟨points_lookup_matches_table.2 (some "school") (some "1") (by decide),
   points_lookup_matches_table.2 (some "city") (some "4") (by decide),
   points_lookup_matches_table.2 none (some "1") (by decide)⟩

/-- C2 counterexample: the claim says every created Achievement has status
`pending`, but the `achievements` model of src/main.py declares no status
column at all — and the record actually stored for a concrete submission
carries exactly the declared fields, none of which is a status. -/
theorem create_has_no_status_field :
    "status" ∉ achievementColumns ∧
    (add_achievement cloudOk "u1" "u2" (some alice) regionalForm none emptyState).2.achievements =
      [{ id := 1, user_id := 1, achievement_type := "student", student_name := some "Student S",
         title := "Olympiad result", description := none, category := "olympiad",
         level := some "regional", place := some "2", file_path := none, points := 35 }] := by
  exact ⟨by decide, by decide⟩

/-- C2 amended: a created Achievement has no status field — the model
declares no status column, and the creation handler stores exactly the
declared fields (identity, type, student name, title, description,
category, level, place, file reference, and server-computed points); no
status-bearing moderation transition exists in src/main.py. -/
theorem create_stores_declared_fields_only
    (cloud : List Nat → String → Except String String) (uuid1 uuid2 : String)
    (u : User) (form : AchievementForm) (st : AppState) :
    "status" ∉ achievementColumns ∧
    add_achievement cloud uuid1 uuid2 (some u) form none st =
      (Response.redirect ("/" ++ pyReplaceChar form.achievement_type '_' '-' ++ "?success=added") 303,
       { st with achievements := st.achievements ++
          [{ id := st.achievements.length + 1, user_id := u.id,
             achievement_type := form.achievement_type, student_name := form.student_name,
             title := form.title, description := form.description, category := form.category,
             level := form.level, place := form.place, file_path := none,
             points := calculated_points form.level form.place }] }) :=
  ⟨by decide, rfl⟩

/-- C3 counterexample: an upload whose extension (`exe`) is far outside
the allowed set \x7bpdf, jpg, jpeg, png, doc, docx, xlsx\x7d is accepted:
the handler redirects with success and an Achievement record is created. -/
theorem exe_upload_accepted :
    add_achievement cloudOk "u1" "u2" (some alice) regionalForm
        (some { filename := "evil.exe", content := [1, 2, 3] }) emptyState =
      (Response.redirect "/student?success=added" 303,
       { achievements :=
          [{ id := 1, user_id := 1, achievement_type := "student",
             student_name := some "Student S", title := "Olympiad result", description := none,
             category := "olympiad", level := some "regional", place := some "2",
             file_path := some "https://cdn.example/file", points := 35 }],
         uploads := [] }) := by
  decide

/-- C3 amended: `add_achievement` performs no extension validation at all:
every upload within the 5 MiB size limit — whatever its filename
extension — results in a success redirect and a new Achievement record. -/
theorem any_extension_accepted (cloud : List Nat → String → Except String String)
    (uuid1 uuid2 : String) (u : User) (form : AchievementForm) (f : UploadedFile)
    (st : AppState) (hsize : f.content.length ≤ 5 * 1024 * 1024) :
    (add_achievement cloud uuid1 uuid2 (some u) form (some f) st).1 =
      Response.redirect ("/" ++ pyReplaceChar form.achievement_type '_' '-' ++ "?success=added") 303 ∧
    (add_achievement cloud uuid1 uuid2 (some u) form (some f) st).2.achievements.length =
      st.achievements.length + 1 :=
  small_upload_commits cloud uuid1 uuid2 u form f st hsize

/-- Witness for C3 amended: the concrete `evil.exe` upload is accepted. -/
theorem any_extension_accepted_witness :
    (add_achievement cloudOk "u1" "u2" (some alice) regionalForm
        (some { filename := "evil.exe", content := [1, 2, 3] }) emptyState).1 =
      Response.redirect ("/" ++ pyReplaceChar regionalForm.achievement_type '_' '-' ++ "?success=added") 303 ∧
    (add_achievement cloudOk "u1" "u2" (some alice) regionalForm
        (some { filename := "evil.exe", content := [1, 2, 3] }) emptyState).2.achievements.length =
      emptyState.achievements.length + 1 :=
  any_extension_accepted cloudOk "u1" "u2" alice regionalForm
    { filename := "evil.exe", content := [1, 2, 3] } emptyState (by decide)

/-- C4: an upload strictly larger than 5 MiB is rejected with the
`file_too_large` error redirect and no Achievement record is created (the
state is returned unchanged); an upload of at most 5 MiB passes the size
check and a record is created. -/
theorem oversize_rejected_and_limit_inclusive
    (cloud : List Nat → String → Except String String) (uuid1 uuid2 : String)
    (u : User) (form : AchievementForm) (f g : UploadedFile) (st : AppState)
    (hname : ¬ f.filename = "") (hbig : f.content.length > 5 * 1024 * 1024)
    (hsmall : g.content.length ≤ 5 * 1024 * 1024) :
    add_achievement cloud uuid1 uuid2 (some u) form (some f) st =
      (Response.redirect ("/" ++ form.achievement_type ++ "?error=file_too_large") 303, st) ∧
    (add_achievement cloud uuid1 uuid2 (some u) form (some g) st).2.achievements.length =
      st.achievements.length + 1 := by
  constructor
  · have hf : (f.filename == "") = false := beq_eq_false_iff_ne.mpr hname
    unfold add_achievement
    simp [hf, hbig]
  · exact (small_upload_commits cloud uuid1 uuid2 u form g st hsmall).2

/-- Witness for C4: a 5 MiB + 1 byte pdf is rejected and the state is
unchanged; a tiny upload yields a new record. -/
theorem oversize_rejected_witness :
    add_achievement cloudOk "u1" "u2" (some alice) regionalForm
        (some { filename := "big.pdf", content := bigContent }) emptyState =
      (Response.redirect ("/" ++ regionalForm.achievement_type ++ "?error=file_too_large") 303,
       emptyState) ∧
    (add_achievement cloudOk "u1" "u2" (some alice) regionalForm
        (some { filename := "ok.pdf", content := [1] }) emptyState).2.achievements.length =
      emptyState.achievements.length + 1 :=
  oversize_rejected_and_limit_inclusive cloudOk "u1" "u2" alice regionalForm
    { filename := "big.pdf", content := bigContent }
    { filename := "ok.pdf", content := [1] } emptyState
    (by decide)
    (by unfold bigContent; rw [List.length_replicate]; norm_num)
    (by decide)

/-- C5 counterexample: the delete handler neither honours admins nor
cleans up files.  An admin who does not own achievement 1 issues a delete:
nothing is removed and no Forbidden failure is produced (the response is
the ordinary redirect).  The owner then deletes it: the record goes, but
the stored file `f.pdf` is still in the uploads directory. -/
theorem delete_ignores_admin_and_files :
    adminUser.is_admin = true ∧ adminUser.id ≠ fileAch.user_id ∧
    delete_achievement (some adminUser) 1 fileState =
      (Response.redirect "/jeke-cabinet" 303, fileState) ∧
    delete_achievement (some alice) 1 fileState =
      (Response.redirect "/jeke-cabinet" 303,
       { achievements := [], uploads := [("f.pdf", [9, 9])] }) := by
  decide

/-- C5 amended: the delete operation removes the record only when the
acting user is the achievement's owner (the query filters on
`user_id == user.id`); any other authenticated user's request — admins
included — is a silent no-op, never a Forbidden failure: the response is
always the `/jeke-cabinet` redirect.  Attached stored files are never
removed from the uploads directory, and deleting an achievement without a
file does not error. -/
theorem delete_owner_only_keeps_files (u : User) (i : Nat) (st : AppState) :
    (delete_achievement (some u) i st).1 = Response.redirect "/jeke-cabinet" 303 ∧
    (delete_achievement (some u) i st).2.uploads = st.uploads ∧
    (delete_achievement (some u) i st).2.achievements =
      st.achievements.eraseP (fun a => a.id == i && a.user_id == u.id) := by
  unfold delete_achievement
  cases hf : st.achievements.find? (fun a => a.id == i && a.user_id == u.id) with
  | some a => simp [hf]
  | none =>
    have hnone : ∀ a ∈ st.achievements, ¬ (a.id == i && a.user_id == u.id) = true :=
      fun a ha => by simpa using List.find?_eq_none.mp hf a ha
    simp [hf, List.eraseP_of_forall_not hnone]

/-- C6 counterexample: the uploads mount serves the stored file bytes to
`bob`, who is neither an admin nor the owner of any achievement in the
state — no authorization failure occurs. -/
theorem uploads_mount_serves_non_owner :
    serve_upload fileState (some bob) "f.pdf" = StaticResult.bytes [9, 9] ∧
    bob.is_admin = false ∧
    (∀ a ∈ fileState.achievements, a.user_id ≠ bob.id) := by
  decide

/-- C6 amended: stored achievement files are served by the unauthenticated
static `/uploads` mount: the outcome is independent of the requesting
identity — every requester (owner, non-owner, or anonymous) receives the
bytes of any stored file, and a file missing from the uploads directory
yields a static NotFound; there is no authorization check and no
distinction between missing-on-disk and never-attached. -/
theorem uploads_mount_requester_irrelevant (st : AppState) (r1 r2 : Option User) (n : String) :
    serve_upload st r1 n = serve_upload st r2 n ∧
    (st.uploads.find? (fun e => e.1 == n) = none →
      serve_upload st r1 n = StaticResult.notFound) ∧
    (∀ e, st.uploads.find? (fun e2 => e2.1 == n) = some e →
      serve_upload st r1 n = StaticResult.bytes e.2) := by
  refine ⟨rfl, ?_, ?_⟩
  · intro h
    unfold serve_upload
    rw [h]
  · intro e h
    unfold serve_upload
    rw [h]

/-- Witness for C6 amended: bob and alice receive the same answer for
`f.pdf`, namely its bytes. -/
theorem uploads_mount_requester_irrelevant_witness :
    serve_upload fileState (some bob) "f.pdf" = serve_upload fileState (some alice) "f.pdf" ∧
    serve_upload fileState (some bob) "f.pdf" = StaticResult.bytes [9, 9] :=
  ⟨(uploads_mount_requester_irrelevant fileState (some bob) (some alice) "f.pdf").1,
   (uploads_mount_requester_irrelevant fileState (some bob) (some alice) "f.pdf").2.2
     ("f.pdf", [9, 9]) (by decide)⟩

/-- C7 (modelled from the spec, the moderation routes being absent from
src/main.py): approve and reject fail with Forbidden for every non-admin
acting user and leave the rows unchanged; they fail with NotFound — again
leaving the rows unchanged — when the id is absent; when the acting user
is an admin and the id is present they succeed and set the addressed
row's status to approved resp. rejected. -/
theorem moderation_admin_only (u : User) (i : Nat) (db : List ModerationRow) :
    (u.is_admin = false →
      approve u i db = (ModerationOutcome.forbidden, db) ∧
      reject u i db = (ModerationOutcome.forbidden, db)) ∧
    (u.is_admin = true → db.find? (fun a => a.id == i) = none →
      approve u i db = (ModerationOutcome.notFound, db) ∧
      reject u i db = (ModerationOutcome.notFound, db)) ∧
    (u.is_admin = true → (∃ a, db.find? (fun a2 => a2.id == i) = some a) →
      (approve u i db).1 = ModerationOutcome.ok ∧
      (reject u i db).1 = ModerationOutcome.ok ∧
      (∀ b ∈ (approve u i db).2, b.id = i → b.status = Status.approved) ∧
      (∀ b ∈ (reject u i db).2, b.id = i → b.status = Status.rejected)) := by
  refine ⟨?_, ?_, ?_⟩
  · intro hna
    unfold approve reject moderate
    rw [hna]
    exact ⟨rfl, rfl⟩
  · intro ha hf
    unfold approve reject moderate
    rw [ha, hf]
    exact ⟨rfl, rfl⟩
  · intro ha hf
    obtain ⟨a, hf⟩ := hf
    unfold approve reject moderate
    rw [ha, hf]
    have hmap : ∀ (s : Status) (b : ModerationRow),
        b ∈ db.map (fun a2 => if a2.id == i then { a2 with status := s } else a2) →
        b.id = i → b.status = s := by
      intro s b hb hbi
      rw [List.mem_map] at hb
      obtain ⟨a2, ha2, hba⟩ := hb
      by_cases hai : a2.id = i
      · rw [← hba]
        simp [hai]
      · rw [← hba] at hbi
        simp [hai] at hbi
    exact ⟨rfl, rfl, fun b hb hbi => hmap Status.approved b hb hbi,
           fun b hb hbi => hmap Status.rejected b hb hbi⟩

/-- Witness for C7: on a one-row queue, a non-admin is refused, an absent
id is NotFound, and an admin approval flips the row to approved. -/
theorem moderation_admin_only_witness :
    approve alice 1 [{ id := 1, user_id := 1, status := Status.pending }] =
      (ModerationOutcome.forbidden, [{ id := 1, user_id := 1, status := Status.pending }]) ∧
    approve adminUser 2 [{ id := 1, user_id := 1, status := Status.pending }] =
      (ModerationOutcome.notFound, [{ id := 1, user_id := 1, status := Status.pending }]) ∧
    (approve adminUser 1 [{ id := 1, user_id := 1, status := Status.pending }]).1 =
      ModerationOutcome.ok :=
  ⟨((moderation_admin_only alice 1 [{ id := 1, user_id := 1, status := Status.pending }]).1
      (by decide)).1,
   ((moderation_admin_only adminUser 2 [{ id := 1, user_id := 1, status := Status.pending }]).2.1
      (by decide) (by decide)).1,
   ((moderation_admin_only adminUser 1 [{ id := 1, user_id := 1, status := Status.pending }]).2.2
      (by decide) ⟨{ id := 1, user_id := 1, status := Status.pending }, by decide⟩).1⟩

/-- C8 counterexample: the fallback filename is not scoped by the user id.
With the remote store failing, alice (id 1) and bob (id 2) submitting the
same file with the same generated uuid obtain the identical stored
filename `u2.pdf` — the user id plays no part in it. -/
theorem fallback_filename_ignores_user :
    alice.id ≠ bob.id ∧
    (add_achievement cloudFail "u1" "u2" (some alice) regionalForm (some pdfFile)
        emptyState).2.uploads = [("u2.pdf", [7, 7, 7])] ∧
    (add_achievement cloudFail "u1" "u2" (some bob) regionalForm (some pdfFile)
        emptyState).2.uploads = [("u2.pdf", [7, 7, 7])] := by
  decide

/-- C8 amended: when the remote upload raises any error, the bytes are
written to the local uploads directory under the generated unique filename
`\x7buuid\x7d.\x7bext\x7d` (not scoped by the user id), the local
reference `/uploads/\x7buuid\x7d.\x7bext\x7d` is recorded on the new
achievement, and the fallback never raises past the caller; when the
remote upload succeeds, the returned secure url is recorded instead — the
caller receives a stored-file reference either way. -/
theorem cloudinary_fallback_stores_locally
    (cloud : List Nat → String → Except String String) (uuid1 uuid2 : String)
    (u : User) (form : AchievementForm) (f : UploadedFile) (st : AppState)
    (err url : String)
    (hname : ¬ f.filename = "") (hsize : f.content.length ≤ 5 * 1024 * 1024) :
    (cloud f.content ("jetistik_hub/" ++ uuid1) = Except.error err →
      add_achievement cloud uuid1 uuid2 (some u) form (some f) st =
        (Response.redirect ("/" ++ pyReplaceChar form.achievement_type '_' '-' ++ "?success=added") 303,
         { achievements := st.achievements ++
            [{ id := st.achievements.length + 1, user_id := u.id,
               achievement_type := form.achievement_type, student_name := form.student_name,
               title := form.title, description := form.description, category := form.category,
               level := form.level, place := form.place,
               file_path := some ("/uploads/" ++ (uuid2 ++ "." ++ file_ext_of f.filename)),
               points := calculated_points form.level form.place }],
           uploads := st.uploads ++ [(uuid2 ++ "." ++ file_ext_of f.filename, f.content)] })) ∧
    (cloud f.content ("jetistik_hub/" ++ uuid1) = Except.ok url →
      add_achievement cloud uuid1 uuid2 (some u) form (some f) st =
        (Response.redirect ("/" ++ pyReplaceChar form.achievement_type '_' '-' ++ "?success=added") 303,
         { st with achievements := st.achievements ++
            [{ id := st.achievements.length + 1, user_id := u.id,
               achievement_type := form.achievement_type, student_name := form.student_name,
               title := form.title, description := form.description, category := form.category,
               level := form.level, place := form.place, file_path := some url,
               points := calculated_points form.level form.place }] })) := by
  have hgt : ¬ f.content.length > 5 * 1024 * 1024 := by omega
  have hf : (f.filename == "") = false := beq_eq_false_iff_ne.mpr hname
  constructor
  · intro h
    unfold add_achievement
    simp [hf, hgt, h]
  · intro h
    unfold add_achievement
    simp [hf, hgt, h]

/-- Witness for C8 amended: with the failing remote store the pdf lands in
the uploads directory and the record points at `/uploads/u2.pdf`; with the
working remote store the record points at the secure url. -/
theorem cloudinary_fallback_stores_locally_witness :
    add_achievement cloudFail "u1" "u2" (some alice) regionalForm (some pdfFile) emptyState =
      (Response.redirect ("/" ++ pyReplaceChar regionalForm.achievement_type '_' '-' ++ "?success=added") 303,
       { achievements := emptyState.achievements ++
          [{ id := emptyState.achievements.length + 1, user_id := alice.id,
             achievement_type := regionalForm.achievement_type,
             student_name := regionalForm.student_name, title := regionalForm.title,
             description := regionalForm.description, category := regionalForm.category,
             level := regionalForm.level, place := regionalForm.place,
             file_path := some ("/uploads/" ++ ("u2" ++ "." ++ file_ext_of pdfFile.filename)),
             points := calculated_points regionalForm.level regionalForm.place }],
         uploads := emptyState.uploads ++ [("u2" ++ "." ++ file_ext_of pdfFile.filename, pdfFile.content)] }) ∧
    add_achievement cloudOk "u1" "u2" (some alice) regionalForm (some pdfFile) emptyState =
      (Response.redirect ("/" ++ pyReplaceChar regionalForm.achievement_type '_' '-' ++ "?success=added") 303,
       { emptyState with achievements := emptyState.achievements ++
          [{ id := emptyState.achievements.length + 1, user_id := alice.id,
             achievement_type := regionalForm.achievement_type,
             student_name := regionalForm.student_name, title := regionalForm.title,
             description := regionalForm.description, category := regionalForm.category,
             level := regionalForm.level, place := regionalForm.place,
             file_path := some "https://cdn.example/file",
             points := calculated_points regionalForm.level regionalForm.place }] }) :=
  ⟨(cloudinary_fallback_stores_locally cloudFail "u1" "u2" alice regionalForm pdfFile
      emptyState "cloudinary down" "https://cdn.example/file" (by decide) (by decide)).1 rfl,
   (cloudinary_fallback_stores_locally cloudOk "u1" "u2" alice regionalForm pdfFile
      emptyState "cloudinary down" "https://cdn.example/file" (by decide) (by decide)).2 rfl⟩

/-- C9: authentication failure is constant-treatment.  Whenever one lookup
finds no user for the username and another finds a user whose password
check fails, the two login responses are the very same
invalid-credentials redirect — nothing in the response distinguishes
"user not found" from "wrong password". -/
theorem login_failure_indistinguishable
    (checkpw : List Nat → String → Bool) (dumps : Nat → String)
    (db1 db2 : List User) (u1 p1 u2 p2 : String) (user : User)
    (h1 : find_user db1 u1 = none)
    (h2 : find_user db2 u2 = some user)
    (h3 : check_password checkpw user.password_hash p2 = false) :
    login checkpw dumps db1 u1 p1 = login checkpw dumps db2 u2 p2 ∧
    login checkpw dumps db1 u1 p1 =
      { url := "/login?error=invalid_credentials", statusCode := 303, tokenCookie := none } := by
  unfold login
  rw [h1, h2]
  simp [h3]

/-- Witness for C9: an unknown username and a wrong password against the
one-user database produce the identical redirect. -/
theorem login_failure_indistinguishable_witness :
    login (fun _ _ => false) (fun _ => "") [alice] "nobody" "pw" =
      login (fun _ _ => false) (fun _ => "") [alice] "alice" "wrong" ∧
    login (fun _ _ => false) (fun _ => "") [alice] "nobody" "pw" =
      { url := "/login?error=invalid_credentials", statusCode := 303, tokenCookie := none } :=
  login_failure_indistinguishable (fun _ _ => false) (fun _ => "") [alice] [alice]
    "nobody" "pw" "alice" "wrong" alice (by decide) (by decide) rfl

/-- C10: passwords are truncated to their first 72 UTF-8 bytes both when
hashed at registration and when checked at login: two passwords whose
UTF-8 encodings agree on the first 72 bytes produce the same stored hash,
the same password-check result against any stored hash, and the same
login response for any user database. -/
theorem password_prefix_72_bytes
    (checkpw : List Nat → String → Bool) (hashpw : List Nat → String → String)
    (dumps : Nat → String) (db : List User) (salt stored_hash username : String)
    (p1 p2 : String)
    (h : (utf8Bytes p1).take 72 = (utf8Bytes p2).take 72) :
    check_password checkpw stored_hash p1 = check_password checkpw stored_hash p2 ∧
    register_password_hash hashpw salt p1 = register_password_hash hashpw salt p2 ∧
    login checkpw dumps db username p1 = login checkpw dumps db username p2 := by
  have hc : ∀ hsh : String, check_password checkpw hsh p1 = check_password checkpw hsh p2 := by
    intro hsh
    unfold check_password
    rw [h]
  refine ⟨hc stored_hash, ?_, ?_⟩
  · unfold register_password_hash
    rw [h]
  · unfold login
    cases find_user db username with
    | none => rfl
    | some user => simp [hc user.password_hash]

/-- A 73-byte ASCII password. -/
def longPw1 : String := String.mk (List.replicate 72 (Char.ofNat 97)) ++ "x"

/-- A second 73-byte ASCII password agreeing with the first on the first
72 bytes and differing in the 73rd. -/
def longPw2 : String := String.mk (List.replicate 72 (Char.ofNat 97)) ++ "y"

/-- Witness for C10: the two 73-byte passwords differing only in their
73rd byte are interchangeable at login and at registration hashing. -/
theorem password_prefix_72_bytes_witness :
    check_password (fun bs _ => bs.length == 72) "hash-a" longPw1 =
      check_password (fun bs _ => bs.length == 72) "hash-a" longPw2 ∧
    register_password_hash (fun _ s => s) "salt" longPw1 =
      register_password_hash (fun _ s => s) "salt" longPw2 ∧
    login (fun bs _ => bs.length == 72) (fun _ => "t") [alice] "alice" longPw1 =
      login (fun bs _ => bs.length == 72) (fun _ => "t") [alice] "alice" longPw2 :=
  password_prefix_72_bytes (fun bs _ => bs.length == 72) (fun _ s => s) (fun _ => "t")
    [alice] "salt" "hash-a" "alice" longPw1 longPw2 (by decide)

end JetistikHub
